import Mathlib

/-!
Verification of the berry-farm scoring pipeline against its specification.

The TypeScript sources are shallowly embedded: JavaScript numbers are
modelled as rationals (ℚ), except where the source calls Math.sqrt, which
is modelled by Real.sqrt over ℝ.  Math.random() is modelled by an explicit
stream of draws `r : ℕ → ℚ` together with a cursor index: each call to the
source's Math.random() consumes the next element of the stream.  Dates are
modelled as integer day counts, with the current clock passed explicitly.
Fallible entry points (the model-loaded guard) return Except.
-/

/-- Nutrient levels record from EnvironmentalData.nutrientLevels. -/
structure NutrientLevels where
  nitrogen : ℚ
  phosphorus : ℚ
  potassium : ℚ
  deriving DecidableEq

/-- EnvironmentalData from yield-predictor.ts. -/
structure EnvironmentalData where
  temperature : ℚ
  humidity : ℚ
  soilMoisture : ℚ
  lightIntensity : ℚ
  ph : ℚ
  nutrientLevels : NutrientLevels
  deriving DecidableEq

/-- PlantData from yield-predictor.ts.  The plant identifier is a required
field of the TypeScript interface; a request object that omits it yields
`undefined` at runtime, which the embedding represents as `none`. -/
structure PlantData where
  plantId : Option String
  growthStage : String
  healthScore : ℚ
  berryCount : ℚ
  daysSincePlanting : ℚ
  daysSinceFlowering : ℚ
  deriving DecidableEq

/-- The yieldRange component of YieldPrediction. -/
structure YieldRange where
  min : ℚ
  max : ℚ
  deriving DecidableEq

/-- The factors component of YieldPrediction. -/
structure YieldFactors where
  positive : List String
  negative : List String
  deriving DecidableEq

/-- YieldPrediction from yield-predictor.ts; harvestDate is an epoch day. -/
structure YieldPrediction where
  expectedYield : ℚ
  confidence : ℚ
  harvestDate : ℤ
  yieldRange : YieldRange
  factors : YieldFactors
  recommendations : List String
  deriving DecidableEq

/-- HistoricalYieldData from yield-predictor.ts (harvestDate as epoch day). -/
structure HistoricalYieldData where
  plantId : String
  harvestDate : ℤ
  actualYield : ℚ
  environmentalConditions : EnvironmentalData
  plantHealth : ℚ
  deriving DecidableEq

namespace YieldPredictor

/-- Growth-stage multiplier table used inside calculateBaseYield;
the source's lookup with default 0 for unknown keys. -/
def baseYieldStageMultiplier (growthStage : String) : ℚ :=
  if growthStage = "germination" then 0
  else if growthStage = "seedling" then 0
  else if growthStage = "vegetative" then 0
  else if growthStage = "flowering" then 0.1
  else if growthStage = "fruiting" then 0.6
  else if growthStage = "harvest-ready" then 1.0
  else if growthStage = "post-harvest" then 0
  else 0

/-- YieldPredictor.calculateBaseYield: berryCount * 8 grams per berry,
adjusted by the growth-stage multiplier. -/
def calculateBaseYield (pd : PlantData) : ℚ :=
  pd.berryCount * 8 * baseYieldStageMultiplier pd.growthStage

/-- Temperature band factor from calculateEnvironmentalMultiplier
(optimal 18-24, then 15-27, then 12-30, else the 0.5 floor). -/
def tempFactor (t : ℚ) : ℚ :=
  if 18 ≤ t ∧ t ≤ 24 then 1.0
  else if 15 ≤ t ∧ t ≤ 27 then 0.9
  else if 12 ≤ t ∧ t ≤ 30 then 0.7
  else 0.5

/-- Humidity band factor from calculateEnvironmentalMultiplier. -/
def humidityFactor (h : ℚ) : ℚ :=
  if 60 ≤ h ∧ h ≤ 80 then 1.0
  else if 50 ≤ h ∧ h ≤ 90 then 0.9
  else 0.7

/-- Soil-moisture band factor from calculateEnvironmentalMultiplier. -/
def moistureFactor (m : ℚ) : ℚ :=
  if 70 ≤ m ∧ m ≤ 85 then 1.0
  else if 60 ≤ m ∧ m ≤ 95 then 0.8
  else 0.6

/-- pH band factor from calculateEnvironmentalMultiplier. -/
def phFactor (p : ℚ) : ℚ :=
  if 5.5 ≤ p ∧ p ≤ 6.5 then 1.0
  else if 5.0 ≤ p ∧ p ≤ 7.0 then 0.9
  else 0.7

/-- YieldPredictor.calculateNutrientBalance: returns 0.5 when the total is
zero, otherwise 1 minus the average deviation of the three ratios from
1/3, floored at 0.5. -/
def calculateNutrientBalance (n : NutrientLevels) : ℚ :=
  let total := n.nitrogen + n.phosphorus + n.potassium
  if total = 0 then 0.5
  else
    let nRatio := n.nitrogen / total
    let pRatio := n.phosphorus / total
    let kRatio := n.potassium / total
    let idealRatio : ℚ := 1 / 3
    let nDeviation := |nRatio - idealRatio|
    let pDeviation := |pRatio - idealRatio|
    let kDeviation := |kRatio - idealRatio|
    let averageDeviation := (nDeviation + pDeviation + kDeviation) / 3
    max 0.5 (1 - averageDeviation)

/-- YieldPredictor.calculateEnvironmentalMultiplier.  The source updates a
running product starting from 1.0; here the four band factors and the
nutrient balance are multiplied directly, which gives the same value. -/
def calculateEnvironmentalMultiplier (ed : EnvironmentalData) : ℚ :=
  tempFactor ed.temperature * humidityFactor ed.humidity *
    moistureFactor ed.soilMoisture * phFactor ed.ph *
    calculateNutrientBalance ed.nutrientLevels

/-- YieldPredictor.calculateHealthMultiplier. -/
def calculateHealthMultiplier (healthScore : ℚ) : ℚ :=
  if 90 ≤ healthScore then 1.0
  else if 80 ≤ healthScore then 0.95
  else if 70 ≤ healthScore then 0.9
  else if 60 ≤ healthScore then 0.8
  else if 50 ≤ healthScore then 0.7
  else 0.5

/-- YieldPredictor.calculateGrowthStageMultiplier. -/
def calculateGrowthStageMultiplier (growthStage : String) : ℚ :=
  if growthStage = "germination" then 0
  else if growthStage = "seedling" then 0
  else if growthStage = "vegetative" then 0.1
  else if growthStage = "flowering" then 0.3
  else if growthStage = "fruiting" then 0.8
  else if growthStage = "harvest-ready" then 1.0
  else if growthStage = "post-harvest" then 0
  else 0

/-- YieldPredictor.calculateConfidence: a base of 0.8 adjusted by
penalties for out-of-band conditions and poor health and bonuses for
optimal conditions, clamped to [0.3, 1.0]. -/
def calculateConfidence (pd : PlantData) (ed : EnvironmentalData) : ℚ :=
  let c0 : ℚ := 0.8
  let c1 := if ed.temperature < 15 ∨ 30 < ed.temperature then c0 - 0.2 else c0
  let c2 := if ed.humidity < 50 ∨ 90 < ed.humidity then c1 - 0.1 else c1
  let c3 := if ed.soilMoisture < 60 ∨ 95 < ed.soilMoisture then c2 - 0.1 else c2
  let c4 := if pd.healthScore < 70 then c3 - 0.2 else c3
  let c5 := if pd.healthScore < 50 then c4 - 0.3 else c4
  let c6 := if 18 ≤ ed.temperature ∧ ed.temperature ≤ 24 then c5 + 0.1 else c5
  let c7 := if 60 ≤ ed.humidity ∧ ed.humidity ≤ 80 then c6 + 0.1 else c6
  let c8 := if 70 ≤ ed.soilMoisture ∧ ed.soilMoisture ≤ 85 then c7 + 0.1 else c7
  max 0.3 (min 1.0 c8)

/-- Days-to-harvest table from predictHarvestDate. -/
def daysToHarvest (growthStage : String) : ℤ :=
  if growthStage = "germination" then 120
  else if growthStage = "seedling" then 100
  else if growthStage = "vegetative" then 80
  else if growthStage = "flowering" then 60
  else if growthStage = "fruiting" then 30
  else if growthStage = "harvest-ready" then 7
  else if growthStage = "post-harvest" then 0
  else 0

/-- YieldPredictor.predictHarvestDate, with the current date passed in. -/
def predictHarvestDate (today : ℤ) (pd : PlantData) : ℤ :=
  today + daysToHarvest pd.growthStage

/-- YieldPredictor.calculateYieldRange: a symmetric band of width
expectedYield * (1 - confidence) around the expected yield, with the
lower end floored at 0. -/
def calculateYieldRange (expectedYield confidence : ℚ) : YieldRange :=
  let uncertainty := 1 - confidence
  let range := expectedYield * uncertainty
  { min := max 0 (expectedYield - range)
    max := expectedYield + range }

/-- YieldPredictor.analyzeFactors: positive/negative factor strings in
source push order. -/
def analyzeFactors (pd : PlantData) (ed : EnvironmentalData) : YieldFactors :=
  let t := ed.temperature
  let h := ed.humidity
  let m := ed.soilMoisture
  let p := ed.ph
  let tempPN : List String × List String :=
    if 18 ≤ t ∧ t ≤ 24 then (["Optimal temperature range"], [])
    else if t < 15 ∨ 30 < t then ([], ["Temperature outside optimal range"])
    else ([], [])
  let humPN : List String × List String :=
    if 60 ≤ h ∧ h ≤ 80 then (["Optimal humidity levels"], [])
    else if h < 50 ∨ 90 < h then ([], ["Humidity outside optimal range"])
    else ([], [])
  let moistPN : List String × List String :=
    if 70 ≤ m ∧ m ≤ 85 then (["Optimal soil moisture"], [])
    else if m < 60 ∨ 95 < m then ([], ["Soil moisture outside optimal range"])
    else ([], [])
  let phPN : List String × List String :=
    if 5.5 ≤ p ∧ p ≤ 6.5 then (["Optimal soil pH"], [])
    else ([], ["Soil pH outside optimal range"])
  let healthPN : List String × List String :=
    if 80 ≤ pd.healthScore then (["Excellent plant health"], [])
    else if pd.healthScore < 60 then ([], ["Poor plant health detected"])
    else ([], [])
  let stagePN : List String × List String :=
    if pd.growthStage = "fruiting" ∨ pd.growthStage = "harvest-ready" then
      (["Optimal growth stage for yield"], [])
    else if pd.growthStage = "germination" ∨ pd.growthStage = "seedling" then
      ([], ["Early growth stage - yield prediction uncertain"])
    else ([], [])
  { positive := tempPN.1 ++ humPN.1 ++ moistPN.1 ++ phPN.1 ++ healthPN.1 ++ stagePN.1
    negative := tempPN.2 ++ humPN.2 ++ moistPN.2 ++ phPN.2 ++ healthPN.2 ++ stagePN.2 }

/-- YieldPredictor.generateRecommendations. -/
def generateRecommendations (factors : YieldFactors) (expectedYield : ℚ) :
    List String :=
  (if factors.negative.contains "Temperature outside optimal range" then
    ["Adjust temperature to 18-24°C for optimal yield"] else []) ++
  (if factors.negative.contains "Humidity outside optimal range" then
    ["Maintain humidity between 60-80%"] else []) ++
  (if factors.negative.contains "Soil moisture outside optimal range" then
    ["Adjust watering schedule to maintain 70-85% soil moisture"] else []) ++
  (if factors.negative.contains "Soil pH outside optimal range" then
    ["Adjust soil pH to 5.5-6.5 for optimal nutrient uptake"] else []) ++
  (if factors.negative.contains "Poor plant health detected" then
    ["Address plant health issues before harvest"] else []) ++
  (if expectedYield < 50 then
    ["Consider additional fertilization to improve yield",
     "Optimize environmental conditions for better growth"]
   else if 100 < expectedYield then
    ["Excellent yield potential - maintain current conditions"]
   else [])

/-- YieldPredictor.predictYield: throws only when the model is not loaded,
otherwise multiplies base yield by the three multipliers and assembles
the prediction.  The image URL parameter is accepted and never used, as
in the source. -/
def predictYield (isModelLoaded : Bool) (today : ℤ) (pd : PlantData)
    (ed : EnvironmentalData) (imageUrl : String) :
    Except String YieldPrediction :=
  if isModelLoaded = false then .error "Model not loaded yet"
  else
    let baseYield := calculateBaseYield pd
    let environmentalMultiplier := calculateEnvironmentalMultiplier ed
    let healthMultiplier := calculateHealthMultiplier pd.healthScore
    let growthStageMultiplier := calculateGrowthStageMultiplier pd.growthStage
    let expectedYield :=
      baseYield * environmentalMultiplier * healthMultiplier *
        growthStageMultiplier
    let confidence := calculateConfidence pd ed
    .ok
      { expectedYield := expectedYield
        confidence := confidence
        harvestDate := predictHarvestDate today pd
        yieldRange := calculateYieldRange expectedYield confidence
        factors := analyzeFactors pd ed
        recommendations :=
          generateRecommendations (analyzeFactors pd ed) expectedYield }

/-- YieldPredictor.updateHistoricalData: push the new record, then keep
only the last 100 records (slice(-100)) when the cap is exceeded. -/
def updateHistoricalData (hist : List HistoricalYieldData)
    (harvestData : HistoricalYieldData) : List HistoricalYieldData :=
  let pushed := hist ++ [harvestData]
  if 100 < pushed.length then pushed.drop (pushed.length - 100) else pushed

end YieldPredictor

/-- GrowthStage union type from growth-stage-classifier.ts. -/
inductive GrowthStage where
  | germination
  | seedling
  | vegetative
  | flowering
  | fruiting
  | harvestReady
  | postHarvest
  deriving DecidableEq

/-- A {min, max, optimal} stage-duration entry (calculateStageConfidence
table). -/
structure StageDuration3 where
  min : ℚ
  max : ℚ
  optimal : ℚ
  deriving DecidableEq

/-- A {min, max} stage-duration entry (calculateStageProgress table). -/
structure StageDuration2 where
  min : ℚ
  max : ℚ
  deriving DecidableEq

namespace GrowthStageClassifier

/-- GrowthStageClassifier.simulateGrowthStage: threshold cascade on days
since planting. -/
def simulateGrowthStage (daysSincePlanting : ℚ) : GrowthStage :=
  if daysSincePlanting ≤ 7 then .germination
  else if daysSincePlanting ≤ 21 then .seedling
  else if daysSincePlanting ≤ 60 then .vegetative
  else if daysSincePlanting ≤ 90 then .flowering
  else if daysSincePlanting ≤ 120 then .fruiting
  else if daysSincePlanting ≤ 140 then .harvestReady
  else .postHarvest

/-- Stage-duration table local to calculateStageConfidence. -/
def confidenceDurations : GrowthStage → StageDuration3
  | .germination => { min := 0, max := 7, optimal := 5 }
  | .seedling => { min := 7, max := 21, optimal := 14 }
  | .vegetative => { min := 21, max := 60, optimal := 40 }
  | .flowering => { min := 60, max := 90, optimal := 75 }
  | .fruiting => { min := 90, max := 120, optimal := 105 }
  | .harvestReady => { min := 120, max := 140, optimal := 130 }
  | .postHarvest => { min := 140, max := 365, optimal := 200 }

/-- GrowthStageClassifier.calculateStageConfidence: 1 minus the distance
from the optimal day divided by the stage width, floored at 0.5. -/
def calculateStageConfidence (stage : GrowthStage)
    (daysSincePlanting : ℚ) : ℚ :=
  let duration := confidenceDurations stage
  let distanceFromOptimal := |daysSincePlanting - duration.optimal|
  let maxDistance := duration.max - duration.min
  max 0.5 (1 - distanceFromOptimal / maxDistance)

/-- Stage-duration table local to calculateStageProgress. -/
def progressDurations : GrowthStage → StageDuration2
  | .germination => { min := 0, max := 7 }
  | .seedling => { min := 7, max := 21 }
  | .vegetative => { min := 21, max := 60 }
  | .flowering => { min := 60, max := 90 }
  | .fruiting => { min := 90, max := 120 }
  | .harvestReady => { min := 120, max := 140 }
  | .postHarvest => { min := 140, max := 365 }

/-- GrowthStageClassifier.calculateStageProgress: the elapsed fraction of
the stage window times 100, clamped via min 100 (max 0 _). -/
def calculateStageProgress (stage : GrowthStage)
    (daysSincePlanting : ℚ) : ℚ :=
  let duration := progressDurations stage
  let progress := (daysSincePlanting - duration.min) / (duration.max - duration.min)
  min 100 (max 0 (progress * 100))

/-- The stage progress as the specification words it: the linear fraction
(elapsed - stageStart)/(stageEnd - stageStart), scaled to a percentage and
clamped to [0, 100].  Stated from the spec sentence, to be compared with
the source's calculateStageProgress. -/
def specStageProgress (stage : GrowthStage) (daysSincePlanting : ℚ) : ℚ :=
  let stageStart := (progressDurations stage).min
  let stageEnd := (progressDurations stage).max
  max 0 (min 100 (100 * ((daysSincePlanting - stageStart) / (stageEnd - stageStart))))

end GrowthStageClassifier

/-- QualityGrade from the berry quality assessor. -/
inductive QualityGrade where
  | A
  | B
  | C
  | D
  | F
  deriving DecidableEq

/-- Harvest recommendation union type from QualityAssessmentResult. -/
inductive HarvestRecommendation where
  | harvestNow
  | wait12Days
  | wait35Days
  | waitWeekPlus
  deriving DecidableEq

/-- BerryQualityMetrics from the berry quality assessor. -/
structure BerryQualityMetrics where
  size : ℚ
  shape : ℚ
  colorUniformity : ℚ
  firmnessPrediction : ℚ
  ripenessLevel : ℚ
  brixPrediction : ℚ
  deriving DecidableEq

/-- The weight table of BerryQualityAssessor.calculateOverallScore. -/
structure QualityWeights where
  size : ℚ
  shape : ℚ
  colorUniformity : ℚ
  firmnessPrediction : ℚ
  ripenessLevel : ℚ
  brixPrediction : ℚ
  deriving DecidableEq

/-- QualityAssessmentResult; confidence is real-valued because the source
computes it with Math.sqrt, and optimalHarvestDate is an optional epoch
day. -/
structure QualityAssessmentResult where
  qualityGrade : QualityGrade
  overallScore : ℚ
  metrics : BerryQualityMetrics
  harvestRecommendation : HarvestRecommendation
  confidence : ℝ
  recommendations : List String
  optimalHarvestDate : Option ℤ

namespace BerryQualityAssessor

/-- BerryQualityAssessor.predictFirmness; u is the Math.random() draw the
source makes inside this function. -/
def predictFirmness (u : ℚ) (daysSinceFlowering : ℚ) : ℚ :=
  let optimalFirmness : ℚ := 85
  let firmnessDecay := max 0 ((daysSinceFlowering - 45) * 2)
  max 20 (optimalFirmness - firmnessDecay + (u - 0.5) * 10)

/-- BerryQualityAssessor.calculateRipenessLevel; u is the Math.random()
draw. -/
def calculateRipenessLevel (u : ℚ) (daysSinceFlowering : ℚ) : ℚ :=
  let baseRipeness := min 100 ((daysSinceFlowering - 30) * 3)
  max 0 (min 100 (baseRipeness + (u - 0.5) * 10))

/-- BerryQualityAssessor.predictBrix; u is the Math.random() draw. -/
def predictBrix (u : ℚ) (daysSinceFlowering : ℚ) : ℚ :=
  let baseBrix := 6 + min 6 ((daysSinceFlowering - 40) * 0.2)
  max 4 (min 12 (baseBrix + (u - 0.5) * 2))

/-- BerryQualityAssessor.analyzeBerryMetrics.  The six Math.random()
calls the source makes (size, shape, colorUniformity, then one inside
each of predictFirmness, calculateRipenessLevel and predictBrix) consume
r i, r (i+1), ..., r (i+5) of the pseudo-random stream. -/
def analyzeBerryMetrics (r : ℕ → ℚ) (i : ℕ)
    (daysSinceFlowering : ℚ) : BerryQualityMetrics :=
  let baseSize := 15 + daysSinceFlowering * 0.5
  let size := min 25 (max 10 (baseSize + (r i - 0.5) * 4))
  let shape := 70 + r (i + 1) * 30
  let colorUniformity := 60 + r (i + 2) * 40
  let firmnessPrediction := predictFirmness (r (i + 3)) daysSinceFlowering
  let ripenessLevel := calculateRipenessLevel (r (i + 4)) daysSinceFlowering
  let brixPrediction := predictBrix (r (i + 5)) daysSinceFlowering
  { size := size
    shape := shape
    colorUniformity := colorUniformity
    firmnessPrediction := firmnessPrediction
    ripenessLevel := ripenessLevel
    brixPrediction := brixPrediction }

/-- The built-in weight table of calculateOverallScore. -/
def defaultWeights : QualityWeights :=
  { size := 0.25
    shape := 0.2
    colorUniformity := 0.2
    firmnessPrediction := 0.15
    ripenessLevel := 0.15
    brixPrediction := 0.05 }

/-- calculateOverallScore with the weight table made explicit: the plain
weighted sum of the (size- and brix-normalized) sub-scores, with no
division by the weight sum. -/
def calculateOverallScoreWith (w : QualityWeights)
    (metrics : BerryQualityMetrics) : ℚ :=
  let normalizedSize := min 100 (metrics.size / 25 * 100)
  let normalizedBrix := min 100 (metrics.brixPrediction / 12 * 100)
  w.size * normalizedSize +
    w.shape * metrics.shape +
    w.colorUniformity * metrics.colorUniformity +
    w.firmnessPrediction * metrics.firmnessPrediction +
    w.ripenessLevel * metrics.ripenessLevel +
    w.brixPrediction * normalizedBrix

/-- BerryQualityAssessor.calculateOverallScore: the weighted sum with the
source's built-in weight table. -/
def calculateOverallScore (metrics : BerryQualityMetrics) : ℚ :=
  calculateOverallScoreWith defaultWeights metrics

/-- Pointwise scaling of the weight table by a constant. -/
def scaleWeights (c : ℚ) (w : QualityWeights) : QualityWeights :=
  { size := c * w.size
    shape := c * w.shape
    colorUniformity := c * w.colorUniformity
    firmnessPrediction := c * w.firmnessPrediction
    ripenessLevel := c * w.ripenessLevel
    brixPrediction := c * w.brixPrediction }

/-- BerryQualityAssessor.determineQualityGrade. -/
def determineQualityGrade (overallScore : ℚ) : QualityGrade :=
  if 90 ≤ overallScore then .A
  else if 80 ≤ overallScore then .B
  else if 70 ≤ overallScore then .C
  else if 60 ≤ overallScore then .D
  else .F

/-- BerryQualityAssessor.determineHarvestRecommendation. -/
def determineHarvestRecommendation (metrics : BerryQualityMetrics)
    (_daysSinceFlowering : ℚ) : HarvestRecommendation :=
  let ripeness := metrics.ripenessLevel
  let firmness := metrics.firmnessPrediction
  if 85 ≤ ripeness ∧ 60 ≤ firmness then .harvestNow
  else if 70 ≤ ripeness ∧ 70 ≤ firmness then .wait12Days
  else if 50 ≤ ripeness ∧ 80 ≤ firmness then .wait35Days
  else .waitWeekPlus

/-- BerryQualityAssessor.calculateConfidence: 1 minus a metric-spread
term, floored at 0.6.  The source's Math.sqrt is modelled by Real.sqrt. -/
noncomputable def calculateConfidence (metrics : BerryQualityMetrics) : ℝ :=
  let variance : ℝ :=
    Real.sqrt (((metrics.shape - 85) ^ 2 + (metrics.colorUniformity - 80) ^ 2 +
      (metrics.firmnessPrediction - 70) ^ 2 : ℚ) : ℝ) / 3
  max 0.6 (1 - variance / 100)

/-- BerryQualityAssessor.generateRecommendations. -/
def generateRecommendations (qualityGrade : QualityGrade)
    (metrics : BerryQualityMetrics) : List String :=
  let graded : List String :=
    match qualityGrade with
    | .A =>
      ["Excellent quality - ready for premium market",
       "Maintain current growing conditions",
       "Consider harvesting within 1-2 days"]
    | .B =>
      ["Good quality - suitable for standard market",
       "Monitor for optimal harvest timing",
       "Ensure consistent watering"]
    | .C =>
      ["Acceptable quality - may need improvement",
       "Check nutrient levels",
       "Optimize environmental conditions",
       "Consider extended ripening period"]
    | .D =>
      ["Below average quality - needs attention",
       "Assess growing conditions",
       "Check for pest or disease issues",
       "Consider adjusting nutrient regimen"]
    | .F =>
      ["Poor quality - immediate intervention required",
       "Diagnose underlying issues",
       "Consider plant health assessment",
       "May need to discard affected berries"]
  graded ++
    (if metrics.size < 15 then
      ["Berry size below optimal - check nutrient availability"] else []) ++
    (if metrics.shape < 75 then
      ["Irregular shape detected - ensure consistent growing conditions"]
     else []) ++
    (if metrics.colorUniformity < 70 then
      ["Color inconsistency - check for disease or nutrient deficiency"]
     else []) ++
    (if metrics.firmnessPrediction < 50 then
      ["Soft berries detected - may be overripe or diseased"] else [])

/-- BerryQualityAssessor.calculateOptimalHarvestDate, with the current
date passed in; none models the undefined return. -/
def calculateOptimalHarvestDate (metrics : BerryQualityMetrics)
    (_daysSinceFlowering : ℚ) (today : ℤ) : Option ℤ :=
  let ripeness := metrics.ripenessLevel
  let firmness := metrics.firmnessPrediction
  if 85 ≤ ripeness ∧ 60 ≤ firmness then some today
  else if 70 ≤ ripeness ∧ 70 ≤ firmness then some (today + 1)
  else if 50 ≤ ripeness ∧ 80 ≤ firmness then some (today + 3)
  else none

/-- BerryQualityAssessor.assessBerryQuality: rejects only when the model
is not loaded; no other input validation exists.  The image URL and plant
id are accepted and never inspected, as in the source (plantId is an
Option so that an absent identifier is representable). -/
noncomputable def assessBerryQuality (isModelLoaded : Bool)
    (_imageUrl : String) (_plantId : Option String)
    (daysSinceFlowering : ℚ) (r : ℕ → ℚ) (i : ℕ) (today : ℤ) :
    Except String QualityAssessmentResult :=
  if isModelLoaded = false then .error "Model not loaded yet"
  else
    let metrics := analyzeBerryMetrics r i daysSinceFlowering
    let overallScore := calculateOverallScore metrics
    let qualityGrade := determineQualityGrade overallScore
    .ok
      { qualityGrade := qualityGrade
        overallScore := overallScore
        metrics := metrics
        harvestRecommendation :=
          determineHarvestRecommendation metrics daysSinceFlowering
        confidence := calculateConfidence metrics
        recommendations := generateRecommendations qualityGrade metrics
        optimalHarvestDate :=
          calculateOptimalHarvestDate metrics daysSinceFlowering today }

end BerryQualityAssessor

/-- CurrentConditions from the climate control module (timestamp as epoch
day). -/
structure CurrentConditions where
  temperature : ℚ
  humidity : ℚ
  lightIntensity : ℚ
  soilMoisture : ℚ
  timestamp : ℤ
  deriving DecidableEq

/-- PlantResponse from the climate control module. -/
structure PlantResponse where
  healthScore : ℚ
  growthRate : ℚ
  stressIndicators : List String
  timestamp : ℤ
  deriving DecidableEq

/-- The {conditions, response} pair the climate history stores. -/
structure ClimateSample where
  conditions : CurrentConditions
  response : PlantResponse
  deriving DecidableEq

namespace ClimateControlAI

/-- ClimateControlAI.updateHistoricalData: push the new pair, then keep
only the last 1000 records when the cap is exceeded. -/
def updateHistoricalData (hist : List ClimateSample)
    (sample : ClimateSample) : List ClimateSample :=
  let pushed := hist ++ [sample]
  if 1000 < pushed.length then pushed.drop (pushed.length - 1000) else pushed

end ClimateControlAI

/-- The push-then-truncate step shared by both history buffers, with the
capacity as a parameter: append the new element, and when the cap is
exceeded keep only the last cap elements. -/
def pushCap {α : Type} (cap : ℕ) (l : List α) (x : α) : List α :=
  let pushed := l ++ [x]
  if cap < pushed.length then pushed.drop (pushed.length - cap) else pushed

/-- A pseudo-random stream whose first six draws are 0 and whose later
draws are 1/2; every draw lies in [0, 1) as Math.random guarantees. -/
def rngEx : ℕ → ℚ := fun n => if n < 6 then 0 else 1 / 2

/-- A sample historical yield record, used to instantiate the ring-buffer
theorem. -/
def sampleYieldRecord : HistoricalYieldData :=
  { plantId := "plant-1"
    harvestDate := 0
    actualYield := 120
    environmentalConditions :=
      { temperature := 21
        humidity := 70
        soilMoisture := 78
        lightIntensity := 20000
        ph := 6
        nutrientLevels := { nitrogen := 1, phosphorus := 1, potassium := 1 } }
    plantHealth := 85 }

/-- A sample climate history record, used to instantiate the ring-buffer
theorem. -/
def sampleClimateRecord : ClimateSample :=
  { conditions :=
      { temperature := 21
        humidity := 70
        lightIntensity := 20000
        soilMoisture := 78
        timestamp := 0 }
    response :=
      { healthScore := 85
        growthRate := 1
        stressIndicators := []
        timestamp := 0 } }

/-- Folding pushCap over any prefix keeps at most cap elements: the
result is always the suffix of acc ++ xs that fits under the cap. -/
lemma foldl_pushCap {α : Type} (cap : ℕ) :
    ∀ (xs acc : List α), acc.length ≤ cap →
      xs.foldl (pushCap cap) acc =
        (acc ++ xs).drop (acc.length + xs.length - cap)
  | [], acc, h => by
    simp only [List.foldl_nil, List.append_nil, List.length_nil]
    have e : acc.length + 0 - cap = 0 := by omega
    rw [e, List.drop_zero]
  | x :: xs, acc, h => by
    rw [List.foldl_cons]
    by_cases hc : cap < acc.length + 1
    · have hacc : acc.length = cap := by omega
      have hpush : pushCap cap acc x = (acc ++ [x]).drop 1 := by
        unfold pushCap
        simp only [List.length_append, List.length_cons, List.length_nil]
        rw [if_pos (by omega)]
        congr 1
        omega
      have hlen : ((acc ++ [x]).drop 1).length = cap := by
        simp [hacc]
      rw [hpush, foldl_pushCap cap xs _ (le_of_eq hlen), hlen]
      have e1 : (acc ++ [x]).drop 1 ++ xs = ((acc ++ [x]) ++ xs).drop 1 :=
        (List.drop_append_of_le_length (by simp)).symm
      rw [e1, List.drop_drop]
      have e2 : acc ++ x :: xs = (acc ++ [x]) ++ xs := by simp
      rw [e2]
      have e3 : acc.length + (x :: xs).length - cap = xs.length + 1 := by
        simp only [List.length_cons]
        omega
      rw [e3]
      have e4 : cap + xs.length - cap = xs.length := by omega
      rw [e4, Nat.add_comm 1 xs.length]
    · have hlen : (acc ++ [x]).length ≤ cap := by
        simp only [List.length_append, List.length_cons, List.length_nil]
        omega
      have hpush : pushCap cap acc x = acc ++ [x] := by
        unfold pushCap
        simp only [List.length_append, List.length_cons, List.length_nil]
        rw [if_neg (by omega)]
      rw [hpush, foldl_pushCap cap xs _ hlen]
      have e2 : (acc ++ [x]) ++ xs = acc ++ x :: xs := by simp
      rw [e2]
      have e3 : (acc ++ [x]).length + xs.length - cap =
          acc.length + (x :: xs).length - cap := by
        simp only [List.length_append, List.length_cons, List.length_nil]
        omega
      rw [e3]

/-- Inserting cap + k elements into an empty pushCap buffer leaves
exactly the last cap of them. -/
lemma foldl_pushCap_drop {α : Type} (cap k : ℕ) (xs : List α)
    (h : xs.length = cap + k) :
    xs.foldl (pushCap cap) [] = xs.drop k := by
  have e := foldl_pushCap cap xs [] (by simp)
  simp only [List.nil_append, List.length_nil, Nat.zero_add] at e
  rw [e, h]
  congr 1
  omega

/-- The two clamp orders (clamp then scale versus scale then clamp) used
by the source and by the spec wording agree. -/
lemma clamp_comm (x : ℚ) :
    min 100 (max 0 (x * 100)) = max 0 (min 100 (100 * x)) := by
  rw [mul_comm]
  rcases le_total (100 * x) 0 with h | h <;>
    rcases le_total (100 * x) 100 with h2 | h2 <;>
      simp [min_def, max_def] <;> split_ifs <;> linarith

/-- C3 (counterexample): the overall quality score is not invariant under
scaling the weight table: doubling the source's built-in weights doubles
the score of this berry, because the aggregator never divides by the
weight sum. -/
theorem overallScore_not_scale_invariant :
    (0:ℚ) < 2 ∧
    BerryQualityAssessor.calculateOverallScoreWith
        (BerryQualityAssessor.scaleWeights 2 BerryQualityAssessor.defaultWeights)
        ⟨20, 80, 80, 70, 50, 8⟩ ≠
      BerryQualityAssessor.calculateOverallScore ⟨20, 80, 80, 70, 50, 8⟩ := by
  constructor
  · norm_num
  · norm_num [BerryQualityAssessor.calculateOverallScoreWith,
      BerryQualityAssessor.calculateOverallScore,
      BerryQualityAssessor.scaleWeights,
      BerryQualityAssessor.defaultWeights, min_def]

/-- C3 (amended): scaling every weight of the quality aggregator by a
constant c multiplies the overall score by c.  The source aggregator is a
plain weighted sum with no normalization by the weight sum (its built-in
table happens to sum to 1), so the score is unchanged only when c = 1. -/
theorem overallScore_homogeneous (c : ℚ) (w : QualityWeights)
    (m : BerryQualityMetrics) :
    BerryQualityAssessor.calculateOverallScoreWith
        (BerryQualityAssessor.scaleWeights c w) m =
      c * BerryQualityAssessor.calculateOverallScoreWith w m := by
  simp only [BerryQualityAssessor.calculateOverallScoreWith,
    BerryQualityAssessor.scaleWeights]
  ring

/-- C5: starting from an empty history, appending 100 + k yield records
(respectively 1000 + k climate records) one at a time leaves exactly the
100 (respectively 1000) most recently appended records, the k oldest
having been evicted in FIFO order. -/
theorem ringBuffer_cap (k : ℕ) (xs : List HistoricalYieldData)
    (ys : List ClimateSample) (hx : xs.length = 100 + k)
    (hy : ys.length = 1000 + k) :
    xs.foldl YieldPredictor.updateHistoricalData [] = xs.drop k ∧
    (xs.foldl YieldPredictor.updateHistoricalData []).length = 100 ∧
    ys.foldl ClimateControlAI.updateHistoricalData [] = ys.drop k ∧
    (ys.foldl ClimateControlAI.updateHistoricalData []).length = 1000 := by
  have ex : YieldPredictor.updateHistoricalData = pushCap 100 := rfl
  have ey : ClimateControlAI.updateHistoricalData = pushCap 1000 := rfl
  have dx := foldl_pushCap_drop 100 k xs hx
  have dy := foldl_pushCap_drop 1000 k ys hy
  rw [ex, ey, dx, dy]
  refine ⟨rfl, ?_, rfl, ?_⟩ <;> simp [hx, hy]

/-- C5 witness: 102 yield records and 1002 climate records leave the 100
and 1000 most recent ones respectively. -/
theorem ringBuffer_cap_witness :
    (List.replicate 102 sampleYieldRecord).length = 100 + 2 ∧
    (List.replicate 1002 sampleClimateRecord).length = 1000 + 2 ∧
    ((List.replicate 102 sampleYieldRecord).foldl
        YieldPredictor.updateHistoricalData [] =
      (List.replicate 102 sampleYieldRecord).drop 2 ∧
    ((List.replicate 102 sampleYieldRecord).foldl
        YieldPredictor.updateHistoricalData []).length = 100 ∧
    (List.replicate 1002 sampleClimateRecord).foldl
        ClimateControlAI.updateHistoricalData [] =
      (List.replicate 1002 sampleClimateRecord).drop 2 ∧
    ((List.replicate 1002 sampleClimateRecord).foldl
        ClimateControlAI.updateHistoricalData []).length = 1000) :=
  ⟨by rw [List.length_replicate], by rw [List.length_replicate],
    ringBuffer_cap 2 (List.replicate 102 sampleYieldRecord)
      (List.replicate 1002 sampleClimateRecord)
      (by rw [List.length_replicate]) (by rw [List.length_replicate])⟩

/-- C9: for non-negative expected yield and confidence in [0, 1], the
computed yield range is non-negative and brackets the expected yield. -/
theorem yieldRange_brackets (expectedYield confidence : ℚ)
    (hE : 0 ≤ expectedYield) (hc0 : 0 ≤ confidence) (hc1 : confidence ≤ 1) :
    0 ≤ (YieldPredictor.calculateYieldRange expectedYield confidence).min ∧
    (YieldPredictor.calculateYieldRange expectedYield confidence).min ≤
      expectedYield ∧
    expectedYield ≤
      (YieldPredictor.calculateYieldRange expectedYield confidence).max := by
  dsimp only [YieldPredictor.calculateYieldRange]
  have hr : 0 ≤ expectedYield * (1 - confidence) :=
    mul_nonneg hE (by linarith)
  exact ⟨le_max_left _ _, max_le hE (by linarith), by linarith⟩

/-- C9 witness: the range around an expected yield of 10 at confidence
1/2 brackets it. -/
theorem yieldRange_brackets_witness :
    (0:ℚ) ≤ 10 ∧ (0:ℚ) ≤ 1/2 ∧ (1/2:ℚ) ≤ 1 ∧
    (0 ≤ (YieldPredictor.calculateYieldRange 10 (1/2)).min ∧
    (YieldPredictor.calculateYieldRange 10 (1/2)).min ≤ 10 ∧
    (10:ℚ) ≤ (YieldPredictor.calculateYieldRange 10 (1/2)).max) :=
  ⟨by norm_num, by norm_num, by norm_num,
    yieldRange_brackets 10 (1/2) (by norm_num) (by norm_num) (by norm_num)⟩

/-- C10: for non-negative nutrient levels the nutrient balance is total
and stays within [0.5, 1]; in particular the zero-total guard returns 0.5
so the ratio computation never divides by zero. -/
theorem nutrientBalance_safe (n : NutrientLevels) (h1 : 0 ≤ n.nitrogen)
    (h2 : 0 ≤ n.phosphorus) (h3 : 0 ≤ n.potassium) :
    (0.5 ≤ YieldPredictor.calculateNutrientBalance n ∧
      YieldPredictor.calculateNutrientBalance n ≤ 1) ∧
    (n.nitrogen + n.phosphorus + n.potassium = 0 →
      YieldPredictor.calculateNutrientBalance n = 0.5) := by
  simp only [YieldPredictor.calculateNutrientBalance]
  split_ifs with htot
  · norm_num
  · refine ⟨⟨le_max_left _ _, ?_⟩, fun h => absurd h htot⟩
    apply max_le (by norm_num)
    exact sub_le_self 1 (by positivity)

/-- C10 witness: balance of the levels 1, 2 and 3, and of the all-zero
levels. -/
theorem nutrientBalance_safe_witness :
    ((0:ℚ) ≤ 1 ∧ (0:ℚ) ≤ 2 ∧ (0:ℚ) ≤ 3 ∧
      (0.5 ≤ YieldPredictor.calculateNutrientBalance ⟨1, 2, 3⟩ ∧
        YieldPredictor.calculateNutrientBalance ⟨1, 2, 3⟩ ≤ 1)) ∧
    YieldPredictor.calculateNutrientBalance ⟨0, 0, 0⟩ = 0.5 :=
  ⟨⟨by norm_num, by norm_num, by norm_num,
      (nutrientBalance_safe ⟨1, 2, 3⟩ (by norm_num) (by norm_num)
        (by norm_num)).1⟩,
    (nutrientBalance_safe ⟨0, 0, 0⟩ (by norm_num) (by norm_num)
        (by norm_num)).2 (by norm_num)⟩

/-- The temperature bands, re-expressed as thresholds on the distance
from the band center 21. -/
lemma tempFactor_dist (v : ℚ) :
    YieldPredictor.tempFactor v =
      if |v - 21| ≤ 3 then 1.0
      else if |v - 21| ≤ 6 then 0.9
      else if |v - 21| ≤ 9 then 0.7
      else 0.5 := by
  have h1 : (18 ≤ v ∧ v ≤ 24) ↔ |v - 21| ≤ 3 := by
    rw [abs_sub_le_iff]
    constructor <;> rintro ⟨a, b⟩ <;> constructor <;> linarith
  have h2 : (15 ≤ v ∧ v ≤ 27) ↔ |v - 21| ≤ 6 := by
    rw [abs_sub_le_iff]
    constructor <;> rintro ⟨a, b⟩ <;> constructor <;> linarith
  have h3 : (12 ≤ v ∧ v ≤ 30) ↔ |v - 21| ≤ 9 := by
    rw [abs_sub_le_iff]
    constructor <;> rintro ⟨a, b⟩ <;> constructor <;> linarith
  unfold YieldPredictor.tempFactor
  simp only [h1, h2, h3]

/-- The humidity bands as distance thresholds around 70. -/
lemma humidityFactor_dist (v : ℚ) :
    YieldPredictor.humidityFactor v =
      if |v - 70| ≤ 10 then 1.0
      else if |v - 70| ≤ 20 then 0.9
      else 0.7 := by
  have h1 : (60 ≤ v ∧ v ≤ 80) ↔ |v - 70| ≤ 10 := by
    rw [abs_sub_le_iff]
    constructor <;> rintro ⟨a, b⟩ <;> constructor <;> linarith
  have h2 : (50 ≤ v ∧ v ≤ 90) ↔ |v - 70| ≤ 20 := by
    rw [abs_sub_le_iff]
    constructor <;> rintro ⟨a, b⟩ <;> constructor <;> linarith
  unfold YieldPredictor.humidityFactor
  simp only [h1, h2]

/-- The soil-moisture bands as distance thresholds around 155/2. -/
lemma moistureFactor_dist (v : ℚ) :
    YieldPredictor.moistureFactor v =
      if |v - 155/2| ≤ 15/2 then 1.0
      else if |v - 155/2| ≤ 35/2 then 0.8
      else 0.6 := by
  have h1 : (70 ≤ v ∧ v ≤ 85) ↔ |v - 155/2| ≤ 15/2 := by
    rw [abs_sub_le_iff]
    constructor <;> rintro ⟨a, b⟩ <;> constructor <;> linarith
  have h2 : (60 ≤ v ∧ v ≤ 95) ↔ |v - 155/2| ≤ 35/2 := by
    rw [abs_sub_le_iff]
    constructor <;> rintro ⟨a, b⟩ <;> constructor <;> linarith
  unfold YieldPredictor.moistureFactor
  simp only [h1, h2]

/-- The pH bands as distance thresholds around 6. -/
lemma phFactor_dist (v : ℚ) :
    YieldPredictor.phFactor v =
      if |v - 6| ≤ 1/2 then 1.0
      else if |v - 6| ≤ 1 then 0.9
      else 0.7 := by
  have h1 : (5.5 ≤ v ∧ v ≤ 6.5) ↔ |v - 6| ≤ 1/2 := by
    rw [abs_sub_le_iff]
    constructor <;> rintro ⟨a, b⟩ <;> constructor <;> linarith
  have h2 : (5.0 ≤ v ∧ v ≤ 7.0) ↔ |v - 6| ≤ 1 := by
    rw [abs_sub_le_iff]
    constructor <;> rintro ⟨a, b⟩ <;> constructor <;> linarith
  unfold YieldPredictor.phFactor
  simp only [h1, h2]

/-- Temperature sub-score monotonicity in distance from 21. -/
lemma tempFactor_mono (v1 v2 : ℚ) (h : |v1 - 21| < |v2 - 21|) :
    YieldPredictor.tempFactor v2 ≤ YieldPredictor.tempFactor v1 := by
  rw [tempFactor_dist v1, tempFactor_dist v2]
  split_ifs <;> linarith

/-- Humidity sub-score monotonicity in distance from 70. -/
lemma humidityFactor_mono (v1 v2 : ℚ) (h : |v1 - 70| < |v2 - 70|) :
    YieldPredictor.humidityFactor v2 ≤ YieldPredictor.humidityFactor v1 := by
  rw [humidityFactor_dist v1, humidityFactor_dist v2]
  split_ifs <;> linarith

/-- Soil-moisture sub-score monotonicity in distance from 155/2. -/
lemma moistureFactor_mono (v1 v2 : ℚ) (h : |v1 - 155/2| < |v2 - 155/2|) :
    YieldPredictor.moistureFactor v2 ≤ YieldPredictor.moistureFactor v1 := by
  rw [moistureFactor_dist v1, moistureFactor_dist v2]
  split_ifs <;> linarith

/-- pH sub-score monotonicity in distance from 6. -/
lemma phFactor_mono (v1 v2 : ℚ) (h : |v1 - 6| < |v2 - 6|) :
    YieldPredictor.phFactor v2 ≤ YieldPredictor.phFactor v1 := by
  rw [phFactor_dist v1, phFactor_dist v2]
  split_ifs <;> linarith

/-- Stage-confidence monotonicity in distance from the stage's optimal
day. -/
lemma stageConfidence_mono (st : GrowthStage) (d1 d2 : ℚ)
    (h : |d1 - (GrowthStageClassifier.confidenceDurations st).optimal| <
      |d2 - (GrowthStageClassifier.confidenceDurations st).optimal|) :
    GrowthStageClassifier.calculateStageConfidence st d2 ≤
      GrowthStageClassifier.calculateStageConfidence st d1 := by
  have hM : 0 < (GrowthStageClassifier.confidenceDurations st).max -
      (GrowthStageClassifier.confidenceDurations st).min := by
    cases st <;> norm_num [GrowthStageClassifier.confidenceDurations]
  dsimp only [GrowthStageClassifier.calculateStageConfidence]
  apply max_le_max (le_refl _)
  exact sub_le_sub_left ((div_le_div_iff_of_pos_right hM).mpr h.le) 1

/-- C6: every sub-score is monotone in distance from its optimal value:
for the four stepped environmental bands (optimal 21, 70, 155/2 and 6
respectively) and for the stage-confidence function (optimal day per
stage), a value strictly farther from optimal never gets a greater
sub-score. -/
theorem subScore_monotone :
    (∀ v1 v2 : ℚ, |v1 - 21| < |v2 - 21| →
      YieldPredictor.tempFactor v2 ≤ YieldPredictor.tempFactor v1) ∧
    (∀ v1 v2 : ℚ, |v1 - 70| < |v2 - 70| →
      YieldPredictor.humidityFactor v2 ≤ YieldPredictor.humidityFactor v1) ∧
    (∀ v1 v2 : ℚ, |v1 - 155/2| < |v2 - 155/2| →
      YieldPredictor.moistureFactor v2 ≤ YieldPredictor.moistureFactor v1) ∧
    (∀ v1 v2 : ℚ, |v1 - 6| < |v2 - 6| →
      YieldPredictor.phFactor v2 ≤ YieldPredictor.phFactor v1) ∧
    (∀ (st : GrowthStage) (d1 d2 : ℚ),
      |d1 - (GrowthStageClassifier.confidenceDurations st).optimal| <
        |d2 - (GrowthStageClassifier.confidenceDurations st).optimal| →
      GrowthStageClassifier.calculateStageConfidence st d2 ≤
        GrowthStageClassifier.calculateStageConfidence st d1) :=
  ⟨tempFactor_mono, humidityFactor_mono, moistureFactor_mono,
    phFactor_mono, stageConfidence_mono⟩

/-- C6 witness: 26 is farther from 21 than 20 is and scores no higher;
day 85 is farther from the flowering optimum 75 than day 75 is and gets
no higher stage confidence. -/
theorem subScore_monotone_witness :
    (|(20:ℚ) - 21| < |26 - 21| ∧
      YieldPredictor.tempFactor 26 ≤ YieldPredictor.tempFactor 20) ∧
    (|(75:ℚ) - (GrowthStageClassifier.confidenceDurations .flowering).optimal| <
        |85 - (GrowthStageClassifier.confidenceDurations .flowering).optimal| ∧
      GrowthStageClassifier.calculateStageConfidence .flowering 85 ≤
        GrowthStageClassifier.calculateStageConfidence .flowering 75) :=
  ⟨⟨by norm_num, subScore_monotone.1 20 26 (by norm_num)⟩,
    ⟨by norm_num [GrowthStageClassifier.confidenceDurations],
      subScore_monotone.2.2.2.2 .flowering 75 85
        (by norm_num [GrowthStageClassifier.confidenceDurations])⟩⟩

/-- C7: the reported stage progress is exactly the spec's linear
fraction (elapsed - stageStart)/(stageEnd - stageStart), scaled to a
percentage and clamped to [0, 100], for every stage and every
days-since-planting value. -/
theorem stageProgress_matches_spec (st : GrowthStage) (d : ℚ) :
    GrowthStageClassifier.calculateStageProgress st d =
      GrowthStageClassifier.specStageProgress st d := by
  simp only [GrowthStageClassifier.calculateStageProgress,
    GrowthStageClassifier.specStageProgress]
  exact clamp_comm _

/-- C1 (counterexample): two invocations of the berry metric analysis on
identical inputs (days since flowering 50) return different metrics when
they consume different pseudo-random draws — the first invocation reads
draws 0-5 of the stream, the second reads draws 6-11, and the shape
scores disagree.  The claimed bit-identical determinism fails on the
source, whose analyzeBerryMetrics calls Math.random. -/
theorem berryMetrics_not_deterministic :
    BerryQualityAssessor.analyzeBerryMetrics rngEx 0 50 ≠
      BerryQualityAssessor.analyzeBerryMetrics rngEx 6 50 := by
  simp only [BerryQualityAssessor.analyzeBerryMetrics,
    BerryQualityAssessor.predictFirmness,
    BerryQualityAssessor.calculateRipenessLevel,
    BerryQualityAssessor.predictBrix, rngEx]
  norm_num [BerryQualityMetrics.mk.injEq, min_def, max_def]

/-- C1 (amended): the berry quality assessment is deterministic in the
inputs together with the pseudo-random draws: whenever the six draws the
two invocations consume coincide, the returned metrics and the full
assessment result are bit-identical; by berryMetrics_not_deterministic
this dependence on the draws is essential, so the assessment is not a
function of the image URL, plant id and days since flowering alone. -/
theorem assessment_deterministic_given_draws (r r' : ℕ → ℚ) (i j : ℕ)
    (d : ℚ) (h : ∀ t, t < 6 → r (i + t) = r' (j + t)) :
    BerryQualityAssessor.analyzeBerryMetrics r i d =
      BerryQualityAssessor.analyzeBerryMetrics r' j d ∧
    ∀ (isModelLoaded : Bool) (imageUrl : String) (plantId : Option String)
      (today : ℤ),
      BerryQualityAssessor.assessBerryQuality isModelLoaded imageUrl plantId
          d r i today =
        BerryQualityAssessor.assessBerryQuality isModelLoaded imageUrl plantId
          d r' j today := by
  have h0 : r i = r' j := by simpa using h 0 (by norm_num)
  have hm : BerryQualityAssessor.analyzeBerryMetrics r i d =
      BerryQualityAssessor.analyzeBerryMetrics r' j d := by
    simp only [BerryQualityAssessor.analyzeBerryMetrics]
    rw [h0, h 1 (by norm_num), h 2 (by norm_num), h 3 (by norm_num),
      h 4 (by norm_num), h 5 (by norm_num)]
  refine ⟨hm, fun isModelLoaded imageUrl plantId today => ?_⟩
  simp only [BerryQualityAssessor.assessBerryQuality]
  rw [hm]

/-- C1 witness: with the all-zero stream, an invocation reading draws
0-5 and one reading draws 3-8 consume equal draws and agree on the
metrics. -/
theorem assessment_deterministic_given_draws_witness :
    (∀ t, t < 6 → (fun _ => (0:ℚ)) (0 + t) = (fun _ => (0:ℚ)) (3 + t)) ∧
    BerryQualityAssessor.analyzeBerryMetrics (fun _ => 0) 0 50 =
      BerryQualityAssessor.analyzeBerryMetrics (fun _ => 0) 3 50 :=
  ⟨fun _ _ => rfl,
    (assessment_deterministic_given_draws (fun _ => 0) (fun _ => 0) 0 3 50
      (fun _ _ => rfl)).1⟩

/-- C2 (counterexample): a scoring request whose plant identifier is
absent is not rejected: with the model loaded, assessBerryQuality on a
request with no plant id returns a successful result, and no
InvalidInputError exists anywhere in the code. -/
theorem missing_plantId_not_rejected :
    (BerryQualityAssessor.assessBerryQuality true "berry.jpg" none 50
      (fun _ => 0) 0 0).isOk = true := rfl

/-- C2 (amended): the scoring calls perform no plant-identifier
validation at all: with the model loaded they complete successfully for
every request, including one whose plant id is absent, and the only
error either entry point can signal is the model-not-loaded guard. -/
theorem no_plantId_validation (imageUrl : String) (plantId : Option String)
    (d : ℚ) (r : ℕ → ℚ) (i : ℕ) (today : ℤ) (pd : PlantData)
    (ed : EnvironmentalData) :
    (BerryQualityAssessor.assessBerryQuality true imageUrl none d r i
      today).isOk = true ∧
    (BerryQualityAssessor.assessBerryQuality true imageUrl plantId d r i
      today).isOk = true ∧
    BerryQualityAssessor.assessBerryQuality false imageUrl plantId d r i
        today = .error "Model not loaded yet" ∧
    (YieldPredictor.predictYield true today
      { pd with plantId := none } ed imageUrl).isOk = true ∧
    YieldPredictor.predictYield false today pd ed imageUrl =
      .error "Model not loaded yet" :=
  ⟨rfl, rfl, rfl, rfl, rfl⟩

/-- C4 (counterexample): at optimal conditions (temperature 21, humidity
70, soil moisture 78, health 90) the yield-predictor confidence is
exactly 1, contradicting the claim that confidence is never exactly 1. -/
theorem confidence_exactly_one :
    YieldPredictor.calculateConfidence
      ⟨some "plant-1", "fruiting", 90, 10, 100, 50⟩
      ⟨21, 70, 78, 20000, 6, ⟨1, 1, 1⟩⟩ = 1 := by
  norm_num [YieldPredictor.calculateConfidence, min_def, max_def]

/-- C4 (amended): every confidence lies in its configured clamp band —
[0.3, 1.0] for the yield predictor and [0.6, 1.0] for the berry quality
assessor — so it is never 0; but it can attain the upper bound 1.0
exactly (confidence_exactly_one), so the claim's "never exactly 1" part
fails. -/
theorem confidence_bands :
    (∀ (pd : PlantData) (ed : EnvironmentalData),
      0.3 ≤ YieldPredictor.calculateConfidence pd ed ∧
        YieldPredictor.calculateConfidence pd ed ≤ 1) ∧
    (∀ m : BerryQualityMetrics,
      (0.6:ℝ) ≤ BerryQualityAssessor.calculateConfidence m ∧
        BerryQualityAssessor.calculateConfidence m ≤ 1) := by
  constructor
  · intro pd ed
    dsimp only [YieldPredictor.calculateConfidence]
    refine ⟨le_max_left _ _, ?_⟩
    apply max_le (by norm_num)
    exact le_trans (min_le_left _ _) (by norm_num)
  · intro m
    dsimp only [BerryQualityAssessor.calculateConfidence]
    refine ⟨le_max_left _ _, ?_⟩
    apply max_le (by norm_num)
    have h2 : (0:ℝ) ≤
        Real.sqrt (((m.shape - 85) ^ 2 + (m.colorUniformity - 80) ^ 2 +
          (m.firmnessPrediction - 70) ^ 2 : ℚ) : ℝ) / 3 / 100 := by
      positivity
    linarith

/-- With temperature 35 and the other signals in their optimal bands,
the yield confidence evaluates to 0.8. -/
lemma confidence_at_temp35 (pd : PlantData) (ed : EnvironmentalData)
    (ht : ed.temperature = 35) (hh1 : 60 ≤ ed.humidity)
    (hh2 : ed.humidity ≤ 80) (hm1 : 70 ≤ ed.soilMoisture)
    (hm2 : ed.soilMoisture ≤ 85) (hs : 70 ≤ pd.healthScore) :
    YieldPredictor.calculateConfidence pd ed = 0.8 := by
  have e1 : (ed.temperature < 15 ∨ 30 < ed.temperature) ↔ True :=
    iff_true_intro (by rw [ht]; norm_num)
  have e2 : (ed.humidity < 50 ∨ 90 < ed.humidity) ↔ False :=
    iff_false_intro (by rintro (x | x) <;> linarith)
  have e3 : (ed.soilMoisture < 60 ∨ 95 < ed.soilMoisture) ↔ False :=
    iff_false_intro (by rintro (x | x) <;> linarith)
  have e4 : (pd.healthScore < 70) ↔ False := iff_false_intro (by linarith)
  have e5 : (pd.healthScore < 50) ↔ False := iff_false_intro (by linarith)
  have e6 : (18 ≤ ed.temperature ∧ ed.temperature ≤ 24) ↔ False :=
    iff_false_intro (by rintro ⟨x, y⟩; rw [ht] at y; norm_num at y)
  have e7 : (60 ≤ ed.humidity ∧ ed.humidity ≤ 80) ↔ True :=
    iff_true_intro ⟨hh1, hh2⟩
  have e8 : (70 ≤ ed.soilMoisture ∧ ed.soilMoisture ≤ 85) ↔ True :=
    iff_true_intro ⟨hm1, hm2⟩
  simp only [YieldPredictor.calculateConfidence, e1, e2, e3, e4, e5, e6, e7,
    e8, if_true, if_false]
  norm_num [min_def, max_def]

/-- With temperature 21 and the other signals in their optimal bands,
the yield confidence evaluates to 1. -/
lemma confidence_at_temp21 (pd : PlantData) (ed : EnvironmentalData)
    (ht : ed.temperature = 21) (hh1 : 60 ≤ ed.humidity)
    (hh2 : ed.humidity ≤ 80) (hm1 : 70 ≤ ed.soilMoisture)
    (hm2 : ed.soilMoisture ≤ 85) (hs : 70 ≤ pd.healthScore) :
    YieldPredictor.calculateConfidence pd ed = 1 := by
  have e1 : (ed.temperature < 15 ∨ 30 < ed.temperature) ↔ False :=
    iff_false_intro (by rintro (x | x) <;> rw [ht] at x <;> norm_num at x)
  have e2 : (ed.humidity < 50 ∨ 90 < ed.humidity) ↔ False :=
    iff_false_intro (by rintro (x | x) <;> linarith)
  have e3 : (ed.soilMoisture < 60 ∨ 95 < ed.soilMoisture) ↔ False :=
    iff_false_intro (by rintro (x | x) <;> linarith)
  have e4 : (pd.healthScore < 70) ↔ False := iff_false_intro (by linarith)
  have e5 : (pd.healthScore < 50) ↔ False := iff_false_intro (by linarith)
  have e6 : (18 ≤ ed.temperature ∧ ed.temperature ≤ 24) ↔ True :=
    iff_true_intro (by rw [ht]; norm_num)
  have e7 : (60 ≤ ed.humidity ∧ ed.humidity ≤ 80) ↔ True :=
    iff_true_intro ⟨hh1, hh2⟩
  have e8 : (70 ≤ ed.soilMoisture ∧ ed.soilMoisture ≤ 85) ↔ True :=
    iff_true_intro ⟨hm1, hm2⟩
  simp only [YieldPredictor.calculateConfidence, e1, e2, e3, e4, e5, e6, e7,
    e8, if_true, if_false]
  norm_num [min_def, max_def]

/-- C8: for any input with temperature 35 (and the remaining signals in
their nominal bands), the yield scoring completes without any error, the
temperature sub-score takes the clamped floor multiplier 0.5 (the least
value the temperature band function ever returns), and the reported
confidence is at least 0.2 below the baseline confidence of the same
input with temperature at the optimum 21. -/
theorem highTemp_absorbed (today : ℤ) (imageUrl : String) (pd : PlantData)
    (ed : EnvironmentalData) (ht : ed.temperature = 35)
    (hh1 : 60 ≤ ed.humidity) (hh2 : ed.humidity ≤ 80)
    (hm1 : 70 ≤ ed.soilMoisture) (hm2 : ed.soilMoisture ≤ 85)
    (hs : 70 ≤ pd.healthScore) :
    (YieldPredictor.predictYield true today pd ed imageUrl).isOk = true ∧
    YieldPredictor.tempFactor ed.temperature = 0.5 ∧
    (∀ t : ℚ, 0.5 ≤ YieldPredictor.tempFactor t) ∧
    YieldPredictor.calculateConfidence pd ed + 0.2 ≤
      YieldPredictor.calculateConfidence pd { ed with temperature := 21 } := by
  refine ⟨rfl, ?_, ?_, ?_⟩
  · rw [ht]
    norm_num [YieldPredictor.tempFactor]
  · intro t
    unfold YieldPredictor.tempFactor
    split_ifs <;> norm_num
  · rw [confidence_at_temp35 pd ed ht hh1 hh2 hm1 hm2 hs,
      confidence_at_temp21 pd { ed with temperature := 21 } rfl hh1 hh2
        hm1 hm2 hs]
    norm_num

/-- C8 witness: the concrete reading with temperature 35 and nominal
humidity 70, soil moisture 78 and health 90. -/
theorem highTemp_absorbed_witness :
    ((35:ℚ) = 35 ∧ (60:ℚ) ≤ 70 ∧ (70:ℚ) ≤ 80 ∧ (70:ℚ) ≤ 78 ∧
      (78:ℚ) ≤ 85 ∧ (70:ℚ) ≤ 90) ∧
    ((YieldPredictor.predictYield true 0
        ⟨some "plant-1", "fruiting", 90, 10, 100, 50⟩
        ⟨35, 70, 78, 20000, 6, ⟨1, 1, 1⟩⟩ "img.jpg").isOk = true ∧
      YieldPredictor.tempFactor (35:ℚ) = 0.5 ∧
      (∀ t : ℚ, 0.5 ≤ YieldPredictor.tempFactor t) ∧
      YieldPredictor.calculateConfidence
          ⟨some "plant-1", "fruiting", 90, 10, 100, 50⟩
          ⟨35, 70, 78, 20000, 6, ⟨1, 1, 1⟩⟩ + 0.2 ≤
        YieldPredictor.calculateConfidence
          ⟨some "plant-1", "fruiting", 90, 10, 100, 50⟩
          ⟨21, 70, 78, 20000, 6, ⟨1, 1, 1⟩⟩) :=
  ⟨⟨rfl, by norm_num, by norm_num, by norm_num, by norm_num, by norm_num⟩,
    highTemp_absorbed 0 "img.jpg"
      ⟨some "plant-1", "fruiting", 90, 10, 100, 50⟩
      ⟨35, 70, 78, 20000, 6, ⟨1, 1, 1⟩⟩ rfl (by norm_num) (by norm_num)
      (by norm_num) (by norm_num) (by norm_num)⟩
